import Mathlib

/-!
Verification development for the generation-job lifecycle of the image/scraping
gateway (FastAPI service).  The Python source is shallowly embedded: pure
control flow becomes Lean functions, Python exceptions become `Except PyExn`,
remote HTTP providers and stdlib facilities (JSON parsing, PIL, base64) become
explicit oracle fields of an environment record, and the in-memory job store
becomes an association list threaded through the functions.
-/

/-! ## Python-style string helpers

The code under test uses Python's `in` operator on strings and
`str.split(sep, 1)[1]`.  We model them over `List Char`. -/

/-- Boolean prefix test on character lists. -/
def isPrefixL : List Char → List Char → Bool
  | [], _ => true
  | _ :: _, [] => false
  | a :: as, b :: bs => a == b && isPrefixL as bs

/-- The substring after the first occurrence of `sep` (Python
`s.split(sep, 1)[1]`), or `none` when `sep` does not occur. -/
def subAfter (sep : List Char) : List Char → Option (List Char)
  | [] => none
  | c :: rest =>
      if isPrefixL sep (c :: rest) then some ((c :: rest).drop sep.length)
      else subAfter sep rest

/-- Python's `needle in hay` for strings (for a non-empty needle). -/
def pyIn (needle hay : String) : Bool :=
  (subAfter needle.data hay.data).isSome

/-- Python's `hay.split(sep, 1)[1]` as an `Option`. -/
def strSubAfter (sep hay : String) : Option String :=
  (subAfter sep.data hay.data).map (fun l => ⟨l⟩)

/-- Python's `", ".join(l)`. -/
def joinComma : List String → String
  | [] => ""
  | [s] => s
  | s :: rest => s ++ ", " ++ joinComma rest

theorem isPrefixL_append (l t : List Char) : isPrefixL l (l ++ t) = true := by
  induction l with
  | nil => rfl
  | cons a as ih => simp [isPrefixL, ih]

theorem subAfter_append_self (sep t : List Char) (h : sep ≠ []) :
    subAfter sep (sep ++ t) = some t := by
  cases sep with
  | nil => exact absurd rfl h
  | cons c cs =>
      show subAfter (c :: cs) ((c :: cs) ++ t) = some t
      rw [List.cons_append, subAfter]
      rw [show isPrefixL (c :: cs) (c :: (cs ++ t)) = true from
        isPrefixL_append (c :: cs) t]
      simp

theorem subAfter_isSome_append_left (n p h : List Char)
    (hh : (subAfter n h).isSome = true) :
    (subAfter n (p ++ h)).isSome = true := by
  induction p with
  | nil => simpa using hh
  | cons c cs ih =>
      rw [List.cons_append, subAfter]
      split
      · simp
      · exact ih

theorem subAfter_isSome_of_prefix (n t : List Char) (h : n ≠ []) :
    (subAfter n (n ++ t)).isSome = true := by
  rw [subAfter_append_self n t h]; rfl

theorem data_append (a b : String) : (a ++ b).data = a.data ++ b.data := by
  cases a; cases b; rfl

theorem string_mk_data (s : String) : String.mk s.data = s := by
  cases s; rfl

/-- A needle contained in `h` is contained in `p ++ h`. -/
theorem pyIn_append_left (n p h : String) (hh : pyIn n h = true) :
    pyIn n (p ++ h) = true := by
  unfold pyIn at hh ⊢
  rw [data_append]
  exact subAfter_isSome_append_left n.data p.data h.data hh

/-- A needle that is a prefix of a string is contained in it. -/
theorem pyIn_of_prefix (n t : String) (h : n.data ≠ []) :
    pyIn n (n ++ t) = true := by
  unfold pyIn
  rw [data_append]
  exact subAfter_isSome_of_prefix n.data t.data h

/-- Splitting after a marker recovers exactly the tail appended to it. -/
theorem strSubAfter_append (sep t : String) (h : sep.data ≠ []) :
    strSubAfter sep (sep ++ t) = some t := by
  unfold strSubAfter
  rw [data_append, subAfter_append_self sep.data t.data h]
  show some (String.mk t.data) = some t
  rw [string_mk_data]

/-- Every non-empty member of a comma-joined list is contained in the
joined string, whatever prefix precedes it. -/
theorem pyIn_joinComma (p m : String) (l : List String)
    (hm : m ∈ l) (hne : m.data ≠ []) :
    pyIn m (p ++ joinComma l) = true := by
  induction l generalizing p with
  | nil => cases hm
  | cons s rest ih =>
      cases hm with
      | head =>
          cases rest with
          | nil =>
              show pyIn m (p ++ m) = true
              have := pyIn_of_prefix m "" hne
              have h2 : m ++ "" = m := by simp
              rw [h2] at this
              exact pyIn_append_left m p m this
          | cons r rs =>
              show pyIn m (p ++ (m ++ ", " ++ joinComma (r :: rs))) = true
              have base : pyIn m (m ++ (", " ++ joinComma (r :: rs))) = true :=
                pyIn_of_prefix m _ hne
              rw [String.append_assoc]
              exact pyIn_append_left m p _ base
      | tail _ hmem =>
          cases rest with
          | nil => cases hmem
          | cons r rs =>
              show pyIn m (p ++ (s ++ ", " ++ joinComma (r :: rs))) = true
              have assoc : p ++ (s ++ ", " ++ joinComma (r :: rs))
                  = (p ++ (s ++ ", ")) ++ joinComma (r :: rs) := by
                simp [String.append_assoc]
              rw [assoc]
              exact ih (p ++ (s ++ ", ")) hmem

/-! ## Python exceptions

`PyExn` abstracts a raised Python exception by its class name, its `str(e)`
message, and (for FastAPI's `HTTPException`) the status code. -/

structure PyExn where
  kind : String
  msg : String
  status : Option Nat := none
deriving DecidableEq, Repr

/-- Python's `str(e)`: FastAPI's `HTTPException` renders as
`"{status_code}: {detail}"`; other exceptions render their message. -/
def strOfExn (e : PyExn) : String :=
  match e.status with
  | some n => toString n ++ ": " ++ e.msg
  | none => e.msg

/-- Decidable equality of `Except` results (for concrete evaluation). -/
instance instDecEqExcept {ε α : Type} [DecidableEq ε] [DecidableEq α] :
    DecidableEq (Except ε α) := fun a b =>
  match a, b with
  | .ok x, .ok y =>
      match decEq x y with
      | isTrue h => isTrue (by rw [h])
      | isFalse h => isFalse (by intro hh; injection hh; contradiction)
  | .error x, .error y =>
      match decEq x y with
      | isTrue h => isTrue (by rw [h])
      | isFalse h => isFalse (by intro hh; injection hh; contradiction)
  | .ok _, .error _ => isFalse (fun hh => Except.noConfusion hh)
  | .error _, .ok _ => isFalse (fun hh => Except.noConfusion hh)

/-! ## Python truthiness -/

/-- Truthiness of an `Optional[str]` (`None` and `""` are falsy). -/
def truthyOptStr : Option String → Bool
  | none => false
  | some s => s ≠ ""

/-- Truthiness of an `Optional[float]` (`None` and `0.0` are falsy);
floats are modelled as exact rationals. -/
def truthyOptRat : Option ℚ → Bool
  | none => false
  | some q => q ≠ 0

/-! ## Data model (app/schemas/image.py)

Capabilities are `str`-valued enums in the source and are compared as
strings by the endpoint, so we model them as the literal strings. -/

/-- `MCPImageModel` (schemas/image.py): the fields the embedded code reads. -/
structure MCPImageModel where
  model_id : String
  name : String
  version : String
  capabilities : List String
deriving DecidableEq, Repr

/-- `ImageGenerationContext` (schemas/image.py), with the pydantic default for
each field.  `scheduler`, `style_preset` and `control_type` are `str`-enums,
modelled by their string values. -/
structure ImageGenerationContext where
  prompt : String
  negative_prompt : Option String := none
  width : Nat := 768
  height : Nat := 768
  num_inference_steps : Nat := 30
  guidance_scale : ℚ := 15/2
  seed : Option Int := none
  batch_size : Nat := 1
  scheduler : String := "euler_ancestral"
  style_preset : Option String := none
  clip_skip : Nat := 2
  style_strength : ℚ := 7/10
  control_image : Option String := none
  control_type : Option String := none
  control_strength : Option ℚ := some (4/5)
  reference_image : Option String := none
  reference_strength : Option ℚ := some (1/2)
  upscale_factor : Option ℚ := none
  face_enhance : Bool := false
  tiling : Bool := false
  image_format : String := "png"
  quality : Nat := 100
deriving DecidableEq, Repr

/-- A metadata value as stored in the job record's metadata dict. -/
inductive MetaVal where
  | str (s : String)
  | int (n : Int)
  | noneV
deriving DecidableEq, Repr

/-- One entry of a job record's `images` list:
`{"image": ..., "type": "base64", "format": ...}`. -/
structure ImageDict where
  image : String
  type : String
  format : String
deriving DecidableEq, Repr

/-- `ImageGenerationResponse` (schemas/image.py); `created_at` is an abstract
timestamp, `metadata` an association list in insertion order. -/
structure ImageGenerationResponse where
  id : String
  status : String
  created_at : Nat
  images : List ImageDict
  metadata : List (String × MetaVal)
deriving DecidableEq, Repr

/-- Lookup in a metadata dict (first matching key). -/
def metaLookup (k : String) : List (String × MetaVal) → Option MetaVal
  | [] => none
  | (k', v) :: rest => if k' = k then some v else metaLookup k rest

/-- Python `context.seed or "random"` (an explicit seed of `0` is falsy and
therefore also echoed as `"random"`). -/
def seedOrRandom : Option Int → MetaVal
  | none => .str "random"
  | some n => if n = 0 then .str "random" else .int n

/-- Metadata value of an optional `str`-enum field (`.value if x else None`). -/
def optEnumMeta : Option String → MetaVal
  | none => .noneV
  | some s => .str s

/-! ## Job store (`_GENERATION_RESPONSES`, a module-level dict) -/

def JobStore : Type := List (String × ImageGenerationResponse)

instance : DecidableEq JobStore := by
  unfold JobStore
  infer_instance

/-- Dict lookup by key. -/
def storeLookup (store : JobStore) (k : String) : Option ImageGenerationResponse :=
  match store with
  | [] => none
  | (k', v) :: rest => if k' = k then some v else storeLookup rest k

/-- Dict assignment: overwrite in place, or append a new key. -/
def storePut (store : JobStore) (k : String) (v : ImageGenerationResponse) : JobStore :=
  match store with
  | [] => [(k, v)]
  | (k', v') :: rest =>
      if k' = k then (k, v) :: rest else (k', v') :: storePut rest k v

/-! ## Model registry (app/services/model_registry.py) -/

/-- Registry state: the `self.models` dict, in insertion order. -/
structure RegState where
  models : List (String × MCPImageModel)
deriving DecidableEq, Repr

/-- Dict lookup in a registry's model list. -/
def regLookupL : List (String × MCPImageModel) → String → Option MCPImageModel
  | [], _ => none
  | (k', v) :: rest, k => if k' = k then some v else regLookupL rest k

/-- Dict lookup in the registry. -/
def regLookup (st : RegState) (k : String) : Option MCPImageModel :=
  regLookupL st.models k

namespace ModelRegistry

/-- One un-retried attempt of `ModelRegistry.register_model`: raises
`HTTPException(400, ...)` on a duplicate identifier, otherwise inserts. -/
def register_model_once (st : RegState) (m : MCPImageModel) : Except PyExn RegState :=
  if (regLookup st m.model_id).isSome then
    .error ⟨"HTTPException", "Model " ++ m.model_id ++ " already registered", some 400⟩
  else
    .ok ⟨st.models ++ [(m.model_id, m)]⟩

end ModelRegistry

/-- The `tenacity.retry(stop=stop_after_attempt(3), wait=wait_exponential(...))`
decorator: the wrapped call is re-attempted on ANY exception, up to 3 attempts;
exhaustion raises a `RetryError` wrapping the last exception.  Returns the
number of attempts made together with the outcome; `wait_exponential` only
delays between attempts and is not otherwise observable here. -/
def tenacityRetry3 {α : Type} (f : Nat → Except PyExn α) : Nat × Except PyExn α :=
  match f 0 with
  | .ok a => (1, .ok a)
  | .error _ =>
    match f 1 with
    | .ok a => (2, .ok a)
    | .error _ =>
      match f 2 with
      | .ok a => (3, .ok a)
      | .error e => (3, .error ⟨"RetryError", strOfExn e, none⟩)

namespace ModelRegistry

/-- `ModelRegistry.register_model` as deployed: the single attempt wrapped in
the tenacity retry decorator.  The attempt mutates the registry only on
success, so every retry sees the same state. -/
def register_model (st : RegState) (m : MCPImageModel) : Nat × Except PyExn RegState :=
  tenacityRetry3 (fun _ => register_model_once st m)

/-- `ModelRegistry.get_model`. -/
def get_model (st : RegState) (model_id : String) : Option MCPImageModel :=
  regLookup st model_id

end ModelRegistry

/-- The first built-in model (`_load_default_models`). -/
def sdModel : MCPImageModel :=
  { model_id := "sd-v1-5"
    name := "Stable Diffusion v1.5"
    version := "1.5"
    capabilities := ["text-to-image", "image-to-image"] }

/-- The second built-in model (`_load_default_models`). -/
def fluxProModel : MCPImageModel :=
  { model_id := "flux-pro-1.1"
    name := "Flux Pro"
    version := "1.1"
    capabilities := ["text-to-image", "image-to-image", "inpainting",
      "controlnet", "upscaling", "face-enhance", "style-transfer"] }

/-- Registry state after `__init__` ran `_load_default_models` (both built-in
registrations succeed on their first attempt). -/
def defaultRegistry : RegState :=
  match (ModelRegistry.register_model ⟨[]⟩ sdModel).2 with
  | .error _ => ⟨[]⟩
  | .ok st1 =>
    match (ModelRegistry.register_model st1 fluxProModel).2 with
    | .error _ => st1
    | .ok st2 => st2

/-! ## Dependency `get_model` (app/api/deps.py)

Note: on a miss it raises a plain `ValueError`, not an `HTTPException`. -/

/-- `deps.get_model`: resolve the path's model id against the registry. -/
def dep_get_model (st : RegState) (model_id : String) : Except PyExn MCPImageModel :=
  match ModelRegistry.get_model st model_id with
  | some m => .ok m
  | none => .error ⟨"ValueError", "Model " ++ model_id ++ " not found", none⟩

/-- Status code carried by an erroneous result, if any. -/
def errStatusOf {α : Type} : Except PyExn α → Option Nat
  | .ok _ => none
  | .error e => e.status

/-! ## Python runtime values for the success path

`FluxClient.generate_image` returns a dict, which the endpoint's success path
then iterates as if it were a list of PIL images.  To express that faithfully
we need a small universe of Python values: iterating a dict yields its keys
(strings), and calling `.save` on a string raises `AttributeError`. -/

inductive PyVal where
  | pyStr (s : String)
  | pyInt (n : Int)
  | pyNone
  | pyImage (img : Nat)
  | pyList (xs : List PyVal)
  | pyDict (entries : List (String × PyVal))
deriving Repr

/-- Python's `type(v).__name__` for our value universe. -/
def pyTypeName : PyVal → String
  | .pyStr _ => "str"
  | .pyInt _ => "int"
  | .pyNone => "NoneType"
  | .pyImage _ => "Image"
  | .pyList _ => "list"
  | .pyDict _ => "dict"

/-- The `AttributeError` raised by `v.save(...)` on a non-image value. -/
def attrErrNoSave (v : PyVal) : PyExn :=
  ⟨"AttributeError",
   "\x27" ++ pyTypeName v ++ "\x27 object has no attribute \x27save\x27", none⟩

/-- Python iteration (`for x in v`): a dict yields its keys in insertion
order, a list its elements, a string its characters.  (A non-iterable raises
`TypeError`; only dicts are iterated in the embedded code.) -/
def pyIterate : PyVal → List PyVal
  | .pyDict entries => entries.map (fun e => PyVal.pyStr e.1)
  | .pyList xs => xs
  | .pyStr s => s.data.map (fun ch => PyVal.pyStr (String.mk [ch]))
  | _ => []

/-! ## Environment: the external collaborators

The base-generation HTTP response, the per-URL fetches, PIL, base64 and
`json.loads` are external to the core; they appear as oracle fields.
Images are abstract handles (`Nat`), raw bytes are `List Nat`. -/

/-- The provider's response to the base-generation POST, already split into
its status code, its raw text, and (when it parses) its `data` entries'
`url` fields and `meta.seed`. -/
structure ProviderResponse where
  status_code : Nat
  text : String
  data : List (Option String)
  meta_seed : Option Int
deriving DecidableEq, Repr

/-- Response of a secondary `GET` on an image URL. -/
structure FetchResp where
  status_code : Nat
  content : List Nat
deriving DecidableEq, Repr

/-- The parts of a `json.loads` result that the reconciliation path reads:
`result.get("images", [])` (each entry abstracted to its `.get("url")`), and
`result.get("seed", "random")`. -/
structure ReconPayload where
  images : Option (List (Option String))
  seed : Option Int
deriving DecidableEq, Repr

/-- Oracles for every external effect reachable from the background task. -/
structure Env where
  provider : ProviderResponse
  parseJson : String → Except PyExn ReconPayload
  fetch : String → Except PyExn FetchResp
  openImage : List Nat → Except PyExn Nat
  enhance : Nat → Except PyExn Nat
  upscale : Nat → ℚ → Except PyExn Nat
  save : Nat → String → Except PyExn (List Nat)
  b64encode : List Nat → String

namespace FluxClient

/-- `FluxClient.generate_image` (services/flux_client.py): raises
`Exception("Image generation failed: " + response.text)` on a non-200 status,
otherwise returns the transformed dict
`{"data": [{"url": ..., "meta": {...}}, ...], "meta": result.get("meta", {})}`.
The outgoing request payload has no observable effect on this embedding. -/
def generate_image (env : Env) (c : ImageGenerationContext) : Except PyExn PyVal :=
  if env.provider.status_code ≠ 200 then
    .error ⟨"Exception", "Image generation failed: " ++ env.provider.text, none⟩
  else
    .ok (.pyDict
      [("data", .pyList (env.provider.data.map (fun u =>
          PyVal.pyDict
            [("url", match u with | some s => PyVal.pyStr s | none => PyVal.pyNone),
             ("meta", .pyDict
               [("seed", match env.provider.meta_seed with
                         | some n => PyVal.pyInt n
                         | none => PyVal.pyNone),
                ("prompt", .pyStr c.prompt),
                ("model", .pyStr "flux-pro")])]))),
       ("meta", .pyDict
         [("seed", match env.provider.meta_seed with
                   | some n => PyVal.pyInt n
                   | none => PyVal.pyNone)])])

/-- `FluxClient.enhance_faces`: its first statement saves the image to a PNG
buffer, so a non-image argument raises `AttributeError`; the remote call, the
secondary URL fetch, and their failure modes are the `enhance` oracle. -/
def enhance_faces (env : Env) (v : PyVal) : Except PyExn PyVal :=
  match v with
  | .pyImage i =>
      match env.enhance i with
      | .ok i2 => .ok (.pyImage i2)
      | .error e => .error e
  | other => .error (attrErrNoSave other)

/-- `FluxClient.upscale_image`: same shape as `enhance_faces`. -/
def upscale_image (env : Env) (v : PyVal) (factor : ℚ) : Except PyExn PyVal :=
  match v with
  | .pyImage i =>
      match env.upscale i factor with
      | .ok i2 => .ok (.pyImage i2)
      | .error e => .error e
  | other => .error (attrErrNoSave other)

end FluxClient

/-- Python `context.upscale_factor and context.upscale_factor > 1`
(`None` and `0.0` short-circuit to falsy). -/
def upscaleRequested : Option ℚ → Bool
  | none => false
  | some q => q ≠ 0 && q > 1

/-- Python `v.save(buffered, format=...)` followed by reading the buffer:
works on images via the `save` oracle, raises `AttributeError` otherwise. -/
def pySave (env : Env) (v : PyVal) (format : String) : Except PyExn (List Nat) :=
  match v with
  | .pyImage i => env.save i format
  | other => .error (attrErrNoSave other)

/-! ## Job records written by the three writers (endpoints/images.py) -/

/-- The `processing` record stored synchronously by `generate_image`
(lines 90-106). -/
def initialResponse (genId modelId : String) (c : ImageGenerationContext)
    (now : Nat) : ImageGenerationResponse :=
  { id := genId
    status := "processing"
    created_at := now
    images := []
    metadata :=
      [("model_id", .str modelId), ("prompt", .str c.prompt),
       ("seed", seedOrRandom c.seed),
       ("style_preset", optEnumMeta c.style_preset),
       ("control_type", optEnumMeta c.control_type),
       ("status", .str "queued")] }

/-- The `completed` record of the plain success path (lines 180-192). -/
def successResponse (genId modelId : String) (c : ImageGenerationContext)
    (now : Nat) (imgs : List ImageDict) : ImageGenerationResponse :=
  { id := genId
    status := "completed"
    created_at := now
    images := imgs
    metadata :=
      [("model_id", .str modelId), ("prompt", .str c.prompt),
       ("seed", seedOrRandom c.seed),
       ("style_preset", optEnumMeta c.style_preset),
       ("status", .str "completed")] }

/-- The `completed` record of the reconciliation path (lines 238-250); its
seed is `result.get("seed", "random")` from the embedded payload. -/
def reconResponse (genId modelId : String) (c : ImageGenerationContext)
    (now : Nat) (payloadSeed : Option Int) (imgs : List ImageDict) :
    ImageGenerationResponse :=
  { id := genId
    status := "completed"
    created_at := now
    images := imgs
    metadata :=
      [("model_id", .str modelId), ("prompt", .str c.prompt),
       ("seed", match payloadSeed with
                | some n => MetaVal.int n
                | none => MetaVal.str "random"),
       ("style_preset", optEnumMeta c.style_preset),
       ("status", .str "completed")] }

/-- The `error` record (lines 262-276). -/
def errorResponse (genId modelId : String) (c : ImageGenerationContext)
    (now : Nat) (error_str : String) : ImageGenerationResponse :=
  { id := genId
    status := "error"
    created_at := now
    images := []
    metadata :=
      [("model_id", .str modelId), ("prompt", .str c.prompt),
       ("seed", seedOrRandom c.seed),
       ("style_preset", optEnumMeta c.style_preset),
       ("status", .str "error"),
       ("error", .str error_str)] }

/-! ## The background task (process_image_generation) -/

/-- One iteration of the success-path loop (lines 159-177): conditional face
enhancement, conditional upscaling, then encode to the requested format and
base64. -/
def processOne (env : Env) (c : ImageGenerationContext) (v : PyVal) :
    Except PyExn ImageDict := do
  let v1 ← if c.face_enhance then FluxClient.enhance_faces env v else .ok v
  let v2 ←
    if upscaleRequested c.upscale_factor then
      FluxClient.upscale_image env v1 (c.upscale_factor.getD 0)
    else .ok v1
  let bytes ← pySave env v2 c.image_format.toUpper
  .ok { image := env.b64encode bytes, type := "base64", format := c.image_format }

/-- The success-path loop over the iterated generation result. -/
def processLoop (env : Env) (c : ImageGenerationContext) :
    List PyVal → Except PyExn (List ImageDict)
  | [] => .ok []
  | v :: rest => do
      let d ← processOne env c v
      let ds ← processLoop env c rest
      .ok (d :: ds)

/-- The `try` block of `process_image_generation` (lines 139-197). -/
def tryBranch (env : Env) (genId modelId : String) (c : ImageGenerationContext)
    (now : Nat) : Except PyExn ImageGenerationResponse := do
  let generated ← FluxClient.generate_image env c
  let imgs ← processLoop env c (pyIterate generated)
  .ok (successResponse genId modelId c now imgs)

/-! ## Reconciliation (the except-branch, lines 199-258) -/

/-- The observable post-processing stages (for pipeline-ordering claims). -/
inductive Stage where
  | faceEnhance
  | upscale
  | tileable
deriving DecidableEq, Repr

/-- One iteration of the reconciliation loop (lines 210-235): skip entries
whose `url` is falsy; fetch the URL; if and only if the fetch status is 200,
open the image, apply the conditional stages and encode it — a non-200 fetch
is silently skipped.  Also returns the trace of stages applied. -/
def reconProcessOne (env : Env) (c : ImageGenerationContext)
    (imgUrl : Option String) : Except PyExn (Option ImageDict × List Stage) :=
  if truthyOptStr imgUrl then do
    let fr ← env.fetch (imgUrl.getD "")
    if fr.status_code = 200 then do
      let img0 ← env.openImage fr.content
      let s1 ←
        if c.face_enhance then
          match env.enhance img0 with
          | .ok i => Except.ok (i, [Stage.faceEnhance])
          | .error e => Except.error e
        else .ok (img0, ([] : List Stage))
      let s2 ←
        if upscaleRequested c.upscale_factor then
          match env.upscale s1.1 (c.upscale_factor.getD 0) with
          | .ok i => Except.ok (i, [Stage.upscale])
          | .error e => Except.error e
        else .ok (s1.1, ([] : List Stage))
      let bytes ← env.save s2.1 c.image_format.toUpper
      .ok (some { image := env.b64encode bytes, type := "base64",
                  format := c.image_format },
           s1.2 ++ s2.2)
    else .ok (none, [])
  else .ok (none, [])

/-- The reconciliation loop over `result.get("images", [])`, collecting the
processed image dicts and the combined stage trace. -/
def reconLoop (env : Env) (c : ImageGenerationContext) :
    List (Option String) → Except PyExn (List ImageDict × List Stage)
  | [] => .ok ([], [])
  | u :: rest => do
      let r ← reconProcessOne env c u
      let rs ← reconLoop env c rest
      match r.1 with
      | some d => .ok (d :: rs.1, r.2 ++ rs.2)
      | none => .ok (rs.1, r.2 ++ rs.2)

/-- The marker test guarding reconciliation (line 202):
`"Image generation failed:" in error_str and '"images":' in error_str`. -/
def reconCondition (error_str : String) : Bool :=
  pyIn "Image generation failed:" error_str && pyIn "\x22images\x22:" error_str

/-- The inner `try` of the reconciliation (lines 203-256): split the message
after the generation-call marker (an absent marker-with-space raises
`IndexError`), `json.loads` the tail, process the payload's images, and build
the `completed` record from the payload's seed and the processed images. -/
def reconcile (env : Env) (genId modelId : String) (c : ImageGenerationContext)
    (now : Nat) (error_str : String) : Except PyExn ImageGenerationResponse := do
  let json_str ←
    match strSubAfter "Image generation failed: " error_str with
    | some s => Except.ok s
    | none => Except.error ⟨"IndexError", "list index out of range", none⟩
  let result ← env.parseJson json_str
  let processed ← reconLoop env c (result.images.getD [])
  .ok (reconResponse genId modelId c now result.seed processed.1)

/-- The whole except-branch (lines 199-276): reconcile when the marker test
passes, fall back to the `error` record otherwise or when reconciliation
itself raises. -/
def exceptBranch (env : Env) (genId modelId : String)
    (c : ImageGenerationContext) (now : Nat) (e : PyExn) :
    ImageGenerationResponse :=
  let error_str := strOfExn e
  if reconCondition error_str then
    match reconcile env genId modelId c now error_str with
    | .ok resp => resp
    | .error pe =>
        errorResponse genId modelId c now
          ("Failed to parse successful response: " ++ strOfExn pe)
  else errorResponse genId modelId c now error_str

/-- `process_image_generation`: the background task.  It is a total function
into a job record — no exception crosses the task boundary. -/
def process_image_generation (env : Env) (genId modelId : String)
    (c : ImageGenerationContext) (now : Nat) : ImageGenerationResponse :=
  match tryBranch env genId modelId c now with
  | .ok r => r
  | .error e => exceptBranch env genId modelId c now e

/-- Running the background task writes the terminal record into the store. -/
def runJob (env : Env) (store : JobStore) (genId modelId : String)
    (c : ImageGenerationContext) (now : Nat) : JobStore :=
  storePut store genId (process_image_generation env genId modelId c now)

/-! ## HTTP endpoints (endpoints/images.py) -/

/-- The required-capability computation of the `generate_image` endpoint
(lines 62-80): `text-to-image` always; `controlnet` when a control image is
present (raising 400 when the control type is missing); `face-enhance`,
`style-transfer`, `upscaling` per the corresponding flags. -/
def requiredCapabilities (c : ImageGenerationContext) :
    Except PyExn (List String) := do
  let req1 := ["text-to-image"]
  let req2 ←
    if truthyOptStr c.control_image then
      if truthyOptStr c.control_type then Except.ok (req1 ++ ["controlnet"])
      else Except.error ⟨"HTTPException",
        "control_type must be specified when using control_image", some 400⟩
    else .ok req1
  let req3 := if c.face_enhance then req2 ++ ["face-enhance"] else req2
  let req4 :=
    if truthyOptStr c.reference_image then req3 ++ ["style-transfer"] else req3
  let req5 :=
    if truthyOptRat c.upscale_factor then req4 ++ ["upscaling"] else req4
  .ok req5

/-- The `POST /models/{model_id}/generate` endpoint (lines 50-116), up to the
point where it returns: validate capabilities, then synchronously store the
`processing` record and hand the id back.  It takes no `Env`: no remote call
is reachable from it — the background task is only scheduled.  The generation
id is an opaque fresh `uuid4` string, passed in as `genId`. -/
def generate_image (genId modelId : String) (model : MCPImageModel)
    (c : ImageGenerationContext) (store : JobStore) (now : Nat) :
    Except PyExn (ImageGenerationResponse × JobStore) := do
  let caps ← requiredCapabilities c
  let missing := caps.filter (fun cap => !(model.capabilities.contains cap))
  if missing ≠ [] then
    .error ⟨"HTTPException",
      "Model missing required capabilities: " ++ joinComma missing, some 400⟩
  else
    let resp := initialResponse genId modelId c now
    .ok (resp, storePut store genId resp)

/-- The `GET /models/{model_id}/generations/{generation_id}` endpoint
(lines 118-131), including its `get_model` dependency. -/
def get_generation_status (registry : RegState) (store : JobStore)
    (model_id generation_id : String) : Except PyExn ImageGenerationResponse := do
  let _ ← dep_get_model registry model_id
  match storeLookup store generation_id with
  | some r => .ok r
  | none =>
      .error ⟨"HTTPException",
        "Generation " ++ generation_id ++ " not found", some 404⟩

/-! ## Scraping service (app/services/scraper.py)

Each operation calls one remote provider method; providers are oracle
functions indexed by the attempt number (a retried call re-invokes its
provider once per attempt).  Each embedded operation returns the number of
provider attempts made together with its outcome, which makes the presence
or absence of the tenacity retry decorator observable. -/

/-- Relevant parts of a `searchscraper` provider response. -/
structure SearchResp where
  status : String
  user_prompt : String
  result : String
deriving DecidableEq, Repr

/-- Relevant parts of a `smartscraper` provider response
(`title` is `response.get("metadata", {}).get("title", url)`). -/
structure SmartResp where
  status : String
  title : Option String
  result : String
deriving DecidableEq, Repr

/-- Relevant parts of a `markdownify` provider response. -/
structure MdResp where
  status : String
  title : Option String
  markdown : String
deriving DecidableEq, Repr

/-- Provider oracles of the scraping service, indexed by attempt number. -/
structure ScrapeEnv where
  searchscraper : Nat → Except PyExn SearchResp
  smartscraper : Nat → Except PyExn SmartResp
  markdownify_p : Nat → Except PyExn MdResp
  analyzesentiment : Nat → Except PyExn String
  summarize_p : Nat → Except PyExn (Option String)

/-- Abstraction of the result dicts the scraping operations return: title,
url, content, and the `source` / `status` / `error` metadata fields. -/
structure ScrapeDoc where
  title : String
  url : String
  content : String
  source : String
  mstatus : Option String
  errorDetail : Option String
deriving DecidableEq, Repr

namespace ScrapeGraphService

/-- One attempt of `search` (lines 39-67): a provider failure is re-raised as
`Exception("Search failed: ...")`; a `completed` response yields a single
result, anything else an empty list. -/
def search_once (env : ScrapeEnv) (i : Nat) (query : String) :
    Except PyExn (List ScrapeDoc) :=
  match env.searchscraper i with
  | .error e => .error ⟨"Exception", "Search failed: " ++ strOfExn e, none⟩
  | .ok r =>
      if r.status = "completed" then
        .ok [{ title := r.user_prompt, url := "", content := r.result,
               source := "scrapegraph", mstatus := none, errorDetail := none }]
      else .ok []

/-- `search`, wrapped in the tenacity retry decorator.  The `query` comes
from the scraping context. -/
def search (env : ScrapeEnv) (query : String) :
    Nat × Except PyExn (List ScrapeDoc) :=
  tenacityRetry3 (fun i => search_once env i query)

/-- One attempt of `extract_content` (lines 69-141): the inner
`except` turns a provider failure into a `partial` fallback dict, and the
outer `except` never triggers, so an attempt always returns normally. -/
def extract_content_once (env : ScrapeEnv) (i : Nat) (url : String) :
    Except PyExn ScrapeDoc :=
  match env.smartscraper i with
  | .error scrape_error =>
      .ok { title := url, url := url, content := "", source := "fallback",
            mstatus := some "partial",
            errorDetail := some (strOfExn scrape_error) }
  | .ok r =>
      if r.status = "completed" then
        .ok { title := r.title.getD url, url := url, content := r.result,
              source := "scrapegraph", mstatus := some "completed",
              errorDetail := none }
      else
        .ok { title := url, url := url, content := r.result,
              source := "scrapegraph", mstatus := some "completed",
              errorDetail := none }

/-- `extract_content`, wrapped in the tenacity retry decorator (vacuously:
an attempt never raises). -/
def extract_content (env : ScrapeEnv) (url : String) :
    Nat × Except PyExn ScrapeDoc :=
  tenacityRetry3 (fun i => extract_content_once env i url)

/-- One attempt of `markdownify` (lines 143-234): on provider failure it
falls back to the (decorated) `extract_content`, which cannot raise, so the
fallback dict is returned; a `completed` response yields the markdown. -/
def markdownify_once (env : ScrapeEnv) (i : Nat) (url clean_level : String) :
    Except PyExn ScrapeDoc :=
  match env.markdownify_p i with
  | .error markdown_error =>
      match (extract_content env url).2 with
      | .ok d =>
          .ok { title := d.title, url := url, content := d.content,
                source := "fallback", mstatus := some "fallback",
                errorDetail := some (strOfExn markdown_error) }
      | .error _ =>
          .ok { title := url, url := url, content := "", source := "error",
                mstatus := some "failed",
                errorDetail := some (strOfExn markdown_error) }
  | .ok r =>
      if r.status = "completed" then
        .ok { title := r.title.getD url, url := url, content := r.markdown,
              source := "scrapegraph", mstatus := some "completed",
              errorDetail := none }
      else
        .ok { title := url, url := url, content := r.markdown,
              source := "scrapegraph", mstatus := some "completed",
              errorDetail := none }

/-- `markdownify`, wrapped in the tenacity retry decorator (vacuously: an
attempt never raises). -/
def markdownify (env : ScrapeEnv) (url clean_level : String) :
    Nat × Except PyExn ScrapeDoc :=
  tenacityRetry3 (fun i => markdownify_once env i url clean_level)

/-- `analyze_sentiment` (lines 236-243): NOT decorated with retry — a single
provider attempt, failure re-raised as
`Exception("Sentiment analysis failed: ...")`. -/
def analyze_sentiment (env : ScrapeEnv) (text : String) :
    Nat × Except PyExn String :=
  (1, match env.analyzesentiment 0 with
      | .ok r => .ok r
      | .error e =>
          .error ⟨"Exception", "Sentiment analysis failed: " ++ strOfExn e, none⟩)

/-- `summarize` (lines 245-257): NOT decorated with retry — a single
provider attempt, `response.get("summary", "")` on success, failure
re-raised as `Exception("Summarization failed: ...")`. -/
def summarize (env : ScrapeEnv) (text : String) (max_length : Nat) :
    Nat × Except PyExn String :=
  (1, match env.summarize_p 0 with
      | .ok r => .ok (r.getD "")
      | .error e =>
          .error ⟨"Exception", "Summarization failed: " ++ strOfExn e, none⟩)

end ScrapeGraphService

/-! ## Shape lemmas for the background task -/

theorem tryBranch_ok_shape (env : Env) (genId modelId : String)
    (c : ImageGenerationContext) (now : Nat) (r : ImageGenerationResponse)
    (h : tryBranch env genId modelId c now = .ok r) :
    ∃ imgs, r = successResponse genId modelId c now imgs := by
  unfold tryBranch at h
  cases hg : FluxClient.generate_image env c with
  | error e =>
      rw [hg] at h
      simp only [Bind.bind, Except.bind] at h
      exact Except.noConfusion h
  | ok v =>
      rw [hg] at h
      simp only [Bind.bind, Except.bind] at h
      cases hp : processLoop env c (pyIterate v) with
      | error e =>
          rw [hp] at h
          exact Except.noConfusion h
      | ok imgs =>
          rw [hp] at h
          injection h with h
          exact ⟨imgs, h.symm⟩

theorem reconcile_ok_shape (env : Env) (genId modelId : String)
    (c : ImageGenerationContext) (now : Nat) (es : String)
    (resp : ImageGenerationResponse)
    (h : reconcile env genId modelId c now es = .ok resp) :
    ∃ js payload pr,
      strSubAfter "Image generation failed: " es = some js ∧
      env.parseJson js = .ok payload ∧
      reconLoop env c (payload.images.getD []) = .ok pr ∧
      resp = reconResponse genId modelId c now payload.seed pr.1 := by
  unfold reconcile at h
  cases hs : strSubAfter "Image generation failed: " es with
  | none =>
      rw [hs] at h
      simp only [Bind.bind, Except.bind] at h
      exact Except.noConfusion h
  | some js =>
      rw [hs] at h
      simp only [Bind.bind, Except.bind] at h
      cases hj : env.parseJson js with
      | error e =>
          rw [hj] at h
          exact Except.noConfusion h
      | ok payload =>
          rw [hj] at h
          dsimp only [] at h
          cases hl : reconLoop env c (payload.images.getD []) with
          | error e =>
              rw [hl] at h
              exact Except.noConfusion h
          | ok pr =>
              rw [hl] at h
              injection h with h
              exact ⟨js, payload, pr, rfl, hj, hl, h.symm⟩

theorem tryBranch_error_provider (env : Env) (genId modelId : String)
    (c : ImageGenerationContext) (now : Nat)
    (hfail : env.provider.status_code ≠ 200) :
    tryBranch env genId modelId c now =
      .error ⟨"Exception", "Image generation failed: " ++ env.provider.text, none⟩ := by
  unfold tryBranch FluxClient.generate_image
  rw [if_pos hfail]
  rfl

theorem reconCondition_marker (text : String)
    (himg : pyIn "\x22images\x22:" text = true) :
    reconCondition ("Image generation failed: " ++ text) = true := by
  unfold reconCondition
  have h1 : pyIn "Image generation failed:"
      ("Image generation failed: " ++ text) = true := by
    have hlit : ("Image generation failed: " : String) =
        "Image generation failed:" ++ " " := by decide
    rw [hlit, String.append_assoc]
    exact pyIn_of_prefix "Image generation failed:" (" " ++ text) (by decide)
  have h2 : pyIn "\x22images\x22:" ("Image generation failed: " ++ text) = true :=
    pyIn_append_left _ _ _ himg
  rw [h1, h2]
  rfl

/-! ## Job-record invariants -/

/-- The store invariant of every written record: a status in the three-state
machine, empty image list outside `completed`, and an `error` metadata key on
the error path. -/
def jobInvariant (r : ImageGenerationResponse) : Prop :=
  (r.status = "processing" ∨ r.status = "completed" ∨ r.status = "error") ∧
  ((r.status = "processing" ∨ r.status = "error") → r.images = []) ∧
  (r.status = "error" → (metaLookup "error" r.metadata).isSome = true)

theorem jobInvariant_initial (genId modelId : String)
    (c : ImageGenerationContext) (now : Nat) :
    jobInvariant (initialResponse genId modelId c now) := by
  refine ⟨Or.inl rfl, fun _ => rfl, fun h => ?_⟩
  have h' : ("processing" : String) = "error" := h
  exact absurd h' (by decide)

theorem jobInvariant_success (genId modelId : String)
    (c : ImageGenerationContext) (now : Nat) (imgs : List ImageDict) :
    jobInvariant (successResponse genId modelId c now imgs) := by
  refine ⟨Or.inr (Or.inl rfl), fun h => ?_, fun h => ?_⟩
  · rcases h with h | h
    · have h' : ("completed" : String) = "processing" := h
      exact absurd h' (by decide)
    · have h' : ("completed" : String) = "error" := h
      exact absurd h' (by decide)
  · have h' : ("completed" : String) = "error" := h
    exact absurd h' (by decide)

theorem jobInvariant_recon (genId modelId : String)
    (c : ImageGenerationContext) (now : Nat) (s : Option Int)
    (imgs : List ImageDict) :
    jobInvariant (reconResponse genId modelId c now s imgs) := by
  refine ⟨Or.inr (Or.inl rfl), fun h => ?_, fun h => ?_⟩
  · rcases h with h | h
    · have h' : ("completed" : String) = "processing" := h
      exact absurd h' (by decide)
    · have h' : ("completed" : String) = "error" := h
      exact absurd h' (by decide)
  · have h' : ("completed" : String) = "error" := h
    exact absurd h' (by decide)

theorem jobInvariant_error (genId modelId : String)
    (c : ImageGenerationContext) (now : Nat) (s : String) :
    jobInvariant (errorResponse genId modelId c now s) := by
  exact ⟨Or.inr (Or.inr rfl), fun _ => rfl, fun _ => rfl⟩

/-! ## Concrete fixtures for witnesses and counterexamples -/

/-- A minimal context (every post-processing flag off). -/
def ctxSimple : ImageGenerationContext := { prompt := "p" }

/-- The spec scenario context. -/
def ctxFox : ImageGenerationContext :=
  { prompt := "a red fox", width := 768, height := 768 }

/-- A context requesting all three spec-described stages. -/
def ctxStages : ImageGenerationContext :=
  { prompt := "p", face_enhance := true, upscale_factor := some 2,
    tiling := true }

/-- A provider failure text embedding a valid images payload. -/
def reconText : String :=
  "\x7b\x22images\x22: [\x7b\x22url\x22: \x22http://img/1\x22\x7d], \x22seed\x22: 42\x7d"

/-- Environment: provider succeeds with one image URL (exercises the success
path). -/
def envOk : Env :=
  { provider := ⟨200, "ok", [some "http://img/1"], some 7⟩
    parseJson := fun _ => .error ⟨"Exception", "Expecting value", none⟩
    fetch := fun _ => .ok ⟨200, [1]⟩
    openImage := fun _ => .ok 1
    enhance := fun i => .ok (i + 10)
    upscale := fun i _ => .ok (i + 100)
    save := fun i _ => .ok [i]
    b64encode := fun _ => "QUJD" }

/-- Environment: provider fails carrying an images payload; all fetches
succeed. -/
def envRecon : Env :=
  { provider := ⟨500, reconText, [], none⟩
    parseJson := fun s =>
      if s = reconText then .ok ⟨some [some "http://img/1"], some 42⟩
      else .error ⟨"Exception", "Expecting value", none⟩
    fetch := fun _ => .ok ⟨200, [1]⟩
    openImage := fun _ => .ok 1
    enhance := fun i => .ok (i + 10)
    upscale := fun i _ => .ok (i + 100)
    save := fun i _ => .ok [i]
    b64encode := fun _ => "QUJD" }

/-- Environment: like `envRecon` but the image fetch returns 404. -/
def envRecon404 : Env :=
  { provider := ⟨500, reconText, [], none⟩
    parseJson := fun s =>
      if s = reconText then .ok ⟨some [some "http://img/1"], some 42⟩
      else .error ⟨"Exception", "Expecting value", none⟩
    fetch := fun _ => .ok ⟨404, []⟩
    openImage := fun _ => .ok 1
    enhance := fun i => .ok (i + 10)
    upscale := fun i _ => .ok (i + 100)
    save := fun i _ => .ok [i]
    b64encode := fun _ => "QUJD" }

/-- Environment: provider fails with a plain error text (no payload). -/
def envBoom : Env :=
  { provider := ⟨500, "boom", [], none⟩
    parseJson := fun _ => .error ⟨"Exception", "Expecting value", none⟩
    fetch := fun _ => .ok ⟨200, [1]⟩
    openImage := fun _ => .ok 1
    enhance := fun i => .ok (i + 10)
    upscale := fun i _ => .ok (i + 100)
    save := fun i _ => .ok [i]
    b64encode := fun _ => "QUJD" }

/-! ## Claim C10 -/

/-- C10: every record written to the job store — the synchronous `processing`
record and the background task's terminal record — has a status in
`processing`, `completed`, `error`; records with status `processing` or
`error` have an empty images list; and every `error` record carries an
`error` key in its metadata. -/
theorem c10_store_invariant (env : Env) (genId modelId : String)
    (c : ImageGenerationContext) (now : Nat) :
    jobInvariant (initialResponse genId modelId c now) ∧
    jobInvariant (process_image_generation env genId modelId c now) := by
  refine ⟨jobInvariant_initial genId modelId c now, ?_⟩
  unfold process_image_generation
  cases ht : tryBranch env genId modelId c now with
  | ok r =>
      obtain ⟨imgs, rfl⟩ := tryBranch_ok_shape env genId modelId c now r ht
      exact jobInvariant_success genId modelId c now imgs
  | error e =>
      show jobInvariant (exceptBranch env genId modelId c now e)
      simp only [exceptBranch]
      split
      · split
        next resp heq =>
          obtain ⟨js, payload, pr, _, _, _, rfl⟩ :=
            reconcile_ok_shape env genId modelId c now (strOfExn e) resp heq
          exact jobInvariant_recon genId modelId c now payload.seed pr.1
        next pe heq =>
          exact jobInvariant_error genId modelId c now _
      · exact jobInvariant_error genId modelId c now _

/-- C10 witness: on a concrete failing environment the terminal record (an
`error` record) indeed has empty images and an `error` metadata key. -/
theorem c10_store_invariant_witness :
    (process_image_generation envBoom "j" "m" ctxSimple 0).images = [] ∧
    (metaLookup "error"
      (process_image_generation envBoom "j" "m" ctxSimple 0).metadata).isSome
      = true := by
  have h := (c10_store_invariant envBoom "j" "m" ctxSimple 0).2
  exact ⟨h.2.1 (Or.inr (by decide)), h.2.2 (by decide)⟩

/-! ## Claim C1 -/

theorem metaLookup_seed_recon (genId modelId : String)
    (c : ImageGenerationContext) (now : Nat) (s : Option Int)
    (imgs : List ImageDict) :
    metaLookup "seed" (reconResponse genId modelId c now s imgs).metadata =
      some (match s with
            | some n => MetaVal.int n
            | none => MetaVal.str "random") := rfl

/-- C1: when the base-generation call fails (non-200 provider status) and its
message embeds a JSON fragment with an `images` field, the background task
reinterprets the failure: if the reconciliation computation succeeds, its
`completed` record — with seed and image list recovered from the parsed
payload — is exactly what the task writes; the job falls through to the error
path only if the reconciliation itself raises. -/
theorem c1_false_failure_reconciliation (env : Env) (genId modelId : String)
    (c : ImageGenerationContext) (now : Nat)
    (hfail : env.provider.status_code ≠ 200)
    (himg : pyIn "\x22images\x22:" env.provider.text = true) :
    (∀ resp, reconcile env genId modelId c now
        ("Image generation failed: " ++ env.provider.text) = .ok resp →
      process_image_generation env genId modelId c now = resp ∧
      resp.status = "completed" ∧
      (∀ payload, env.parseJson env.provider.text = .ok payload →
        metaLookup "seed" resp.metadata =
          some (match payload.seed with
                | some n => MetaVal.int n
                | none => MetaVal.str "random") ∧
        ∃ t, reconLoop env c (payload.images.getD []) =
          .ok (resp.images, t))) ∧
    (∀ pe, reconcile env genId modelId c now
        ("Image generation failed: " ++ env.provider.text) = .error pe →
      process_image_generation env genId modelId c now =
        errorResponse genId modelId c now
          ("Failed to parse successful response: " ++ strOfExn pe)) := by
  have htb := tryBranch_error_provider env genId modelId c now hfail
  have hcond := reconCondition_marker env.provider.text himg
  have hproc : process_image_generation env genId modelId c now =
      exceptBranch env genId modelId c now
        ⟨"Exception", "Image generation failed: " ++ env.provider.text, none⟩ := by
    unfold process_image_generation
    rw [htb]
  constructor
  · intro resp hr
    have hb : exceptBranch env genId modelId c now
        ⟨"Exception", "Image generation failed: " ++ env.provider.text, none⟩
        = resp := by
      unfold exceptBranch
      show (if reconCondition ("Image generation failed: " ++ env.provider.text)
              = true then _ else _) = resp
      rw [hcond, if_pos rfl]
      dsimp only [strOfExn]
      rw [hr]
    obtain ⟨js, payload0, pr, hjs, hpj, hl, hshape⟩ :=
      reconcile_ok_shape env genId modelId c now
        ("Image generation failed: " ++ env.provider.text) resp hr
    have hjs2 : js = env.provider.text := by
      have := strSubAfter_append "Image generation failed: "
        env.provider.text (by decide)
      rw [this] at hjs
      exact (Option.some.injEq _ _ ▸ hjs).symm
    subst hjs2
    refine ⟨hproc.trans hb, ?_, ?_⟩
    · rw [hshape]; rfl
    · intro payload hp
      have hpeq : payload = payload0 := by
        rw [hp] at hpj
        exact (Except.ok.injEq _ _ ▸ hpj)
      subst hpeq
      constructor
      · rw [hshape]
        exact metaLookup_seed_recon genId modelId c now payload.seed pr.1
      · refine ⟨pr.2, ?_⟩
        rw [hshape]
        show reconLoop env c (payload.images.getD []) = .ok (pr.1, pr.2)
        rw [hl]
  · intro pe hpe
    rw [hproc]
    unfold exceptBranch
    show (if reconCondition ("Image generation failed: " ++ env.provider.text)
            = true then _ else _) = _
    rw [hcond, if_pos rfl]
    dsimp only [strOfExn]
    rw [hpe]

/-- C1 witness: a concrete failing provider response embedding a one-image
payload with seed 42 is reconciled into the corresponding `completed`
record. -/
theorem c1_false_failure_reconciliation_witness :
    process_image_generation envRecon "j" "m" ctxSimple 0 =
      reconResponse "j" "m" ctxSimple 0 (some 42)
        [⟨"QUJD", "base64", "png"⟩] := by
  have h := (c1_false_failure_reconciliation envRecon "j" "m" ctxSimple 0
      (by decide) (by decide)).1
      (reconResponse "j" "m" ctxSimple 0 (some 42) [⟨"QUJD", "base64", "png"⟩])
      (by decide)
  exact h.1

/-! ## Claim C6 -/

/-- C6: any background failure other than a successfully reconciled one —
a failure whose message does not satisfy the reconciliation marker test, or
one whose reconciliation itself raises — results in an `error` record whose
metadata embeds the stringified failure under the `error` key; the task
itself is a total function into a record, so no exception crosses the
background-task boundary. -/
theorem c6_background_error_capture (env : Env) (genId modelId : String)
    (c : ImageGenerationContext) (now : Nat) (e : PyExn)
    (he : tryBranch env genId modelId c now = .error e) :
    (reconCondition (strOfExn e) = false →
      process_image_generation env genId modelId c now =
        errorResponse genId modelId c now (strOfExn e)) ∧
    (∀ pe, reconCondition (strOfExn e) = true →
      reconcile env genId modelId c now (strOfExn e) = .error pe →
      process_image_generation env genId modelId c now =
        errorResponse genId modelId c now
          ("Failed to parse successful response: " ++ strOfExn pe)) ∧
    (∀ s, (errorResponse genId modelId c now s).status = "error" ∧
      (errorResponse genId modelId c now s).images = [] ∧
      metaLookup "error" (errorResponse genId modelId c now s).metadata =
        some (MetaVal.str s)) := by
  have hproc : process_image_generation env genId modelId c now =
      exceptBranch env genId modelId c now e := by
    unfold process_image_generation
    rw [he]
  refine ⟨?_, ?_, fun s => ⟨rfl, rfl, rfl⟩⟩
  · intro hc
    rw [hproc]
    unfold exceptBranch
    show (if reconCondition (strOfExn e) = true then _ else _) = _
    rw [hc]
    simp
  · intro pe hc hpe
    rw [hproc]
    unfold exceptBranch
    show (if reconCondition (strOfExn e) = true then _ else _) = _
    rw [hc, if_pos rfl, hpe]

/-- C6 witness: a plain provider failure (no embedded payload) lands in the
`error` record embedding the stringified failure. -/
theorem c6_background_error_capture_witness :
    process_image_generation envBoom "j" "m" ctxSimple 0 =
      errorResponse "j" "m" ctxSimple 0 "Image generation failed: boom" := by
  exact (c6_background_error_capture envBoom "j" "m" ctxSimple 0
    ⟨"Exception", "Image generation failed: boom", none⟩ (by decide)).1
    (by decide)

/-! ## Claim C5 -/

/-- The required-capability set, as a pure function of the request flags. -/
def capsOf (c : ImageGenerationContext) : List String :=
  ["text-to-image"]
    ++ (if truthyOptStr c.control_image then ["controlnet"] else [])
    ++ (if c.face_enhance then ["face-enhance"] else [])
    ++ (if truthyOptStr c.reference_image then ["style-transfer"] else [])
    ++ (if truthyOptRat c.upscale_factor then ["upscaling"] else [])

theorem requiredCapabilities_err (c : ImageGenerationContext)
    (h1 : truthyOptStr c.control_image = true)
    (h2 : truthyOptStr c.control_type = false) :
    requiredCapabilities c = .error ⟨"HTTPException",
      "control_type must be specified when using control_image", some 400⟩ := by
  unfold requiredCapabilities
  rw [h1, if_pos rfl, h2, if_neg (by simp)]
  rfl

theorem requiredCapabilities_ok_eq (c : ImageGenerationContext)
    (caps : List String) (h : requiredCapabilities c = .ok caps) :
    caps = capsOf c := by
  unfold requiredCapabilities at h
  unfold capsOf
  cases h1 : truthyOptStr c.control_image <;>
    cases h2 : truthyOptStr c.control_type <;>
      cases h3 : c.face_enhance <;>
        cases h4 : truthyOptStr c.reference_image <;>
          cases h5 : truthyOptRat c.upscale_factor <;>
            simp only [h1, h2, h3, h4, h5, Bind.bind, Except.bind,
              if_true, if_false, reduceIte] at h ⊢
  all_goals
    first
      | exact Except.noConfusion h
      | (injection h with h
         subst h
         rfl)

theorem capsOf_mem (c : ImageGenerationContext) (cap : String) :
    cap ∈ capsOf c ↔
      (cap = "text-to-image" ∨
       (cap = "controlnet" ∧ truthyOptStr c.control_image = true) ∨
       (cap = "face-enhance" ∧ c.face_enhance = true) ∨
       (cap = "style-transfer" ∧ truthyOptStr c.reference_image = true) ∨
       (cap = "upscaling" ∧ truthyOptRat c.upscale_factor = true)) := by
  unfold capsOf
  cases h1 : truthyOptStr c.control_image <;>
    cases h3 : c.face_enhance <;>
      cases h4 : truthyOptStr c.reference_image <;>
        cases h5 : truthyOptRat c.upscale_factor <;>
          simp [h1, h3, h4, h5]

theorem capsOf_nonempty_data (c : ImageGenerationContext) (cap : String)
    (h : cap ∈ capsOf c) : cap.data ≠ [] := by
  rcases (capsOf_mem c cap).1 h with h' | ⟨h', _⟩ | ⟨h', _⟩ | ⟨h', _⟩ | ⟨h', _⟩ <;>
    · subst h'
      decide

/-- C5: the submission endpoint computes the required-capability set exactly
as specified (text-to-image always; controlnet, face-enhance, style-transfer,
upscaling per the corresponding flags, with a 400 naming `control_type` when
a control image arrives without a control type), and when the set is not
covered by the model it fails with a 400 naming every missing capability —
in both failure cases before any job record is stored (the endpoint returns
`error` without a new store, and it takes no remote-call environment at
all). -/
theorem c5_capability_validation (genId modelId : String)
    (model : MCPImageModel) (c : ImageGenerationContext) (store : JobStore)
    (now : Nat) :
    (truthyOptStr c.control_image = true →
      truthyOptStr c.control_type = false →
      generate_image genId modelId model c store now =
        .error ⟨"HTTPException",
          "control_type must be specified when using control_image",
          some 400⟩) ∧
    (∀ caps, requiredCapabilities c = .ok caps →
      ∀ cap, cap ∈ caps ↔
        (cap = "text-to-image" ∨
         (cap = "controlnet" ∧ truthyOptStr c.control_image = true) ∨
         (cap = "face-enhance" ∧ c.face_enhance = true) ∨
         (cap = "style-transfer" ∧ truthyOptStr c.reference_image = true) ∨
         (cap = "upscaling" ∧ truthyOptRat c.upscale_factor = true))) ∧
    (∀ caps, requiredCapabilities c = .ok caps →
      caps.filter (fun cap => !(model.capabilities.contains cap)) ≠ [] →
      generate_image genId modelId model c store now =
        .error ⟨"HTTPException",
          "Model missing required capabilities: " ++
            joinComma (caps.filter
              (fun cap => !(model.capabilities.contains cap))),
          some 400⟩ ∧
      ∀ m ∈ caps, m ∉ model.capabilities →
        pyIn m ("Model missing required capabilities: " ++
          joinComma (caps.filter
            (fun cap => !(model.capabilities.contains cap)))) = true) ∧
    (∀ caps, requiredCapabilities c = .ok caps →
      caps.filter (fun cap => !(model.capabilities.contains cap)) = [] →
      generate_image genId modelId model c store now =
        .ok (initialResponse genId modelId c now,
             storePut store genId (initialResponse genId modelId c now)) ∧
      (initialResponse genId modelId c now).status = "processing" ∧
      (initialResponse genId modelId c now).images = []) := by
  refine ⟨?_, ?_, ?_, ?_⟩
  · intro h1 h2
    unfold generate_image
    rw [requiredCapabilities_err c h1 h2]
    rfl
  · intro caps hcaps cap
    rw [requiredCapabilities_ok_eq c caps hcaps]
    exact capsOf_mem c cap
  · intro caps hcaps hmiss
    constructor
    · unfold generate_image
      rw [hcaps]
      simp only [Bind.bind, Except.bind]
      rw [if_pos hmiss]
    · intro m hm hnot
      apply pyIn_joinComma
      · rw [List.mem_filter]
        refine ⟨hm, ?_⟩
        simp only [Bool.not_eq_true']
        rw [← Bool.not_eq_true]
        intro hcon
        exact hnot (by simpa using hcon)
      · exact capsOf_nonempty_data c m
          (requiredCapabilities_ok_eq c caps hcaps ▸ hm)
  · intro caps hcaps hmiss
    refine ⟨?_, rfl, rfl⟩
    unfold generate_image
    rw [hcaps]
    simp only [Bind.bind, Except.bind]
    rw [if_neg (fun hh => hh hmiss)]

/-- C5 witness: a control image without a control type yields the synchronous
400 naming `control_type`; and a controlnet request against a model without
that capability yields the 400 naming `controlnet`. -/
theorem c5_capability_validation_witness :
    generate_image "j" "sd-v1-5" sdModel
      { prompt := "p", control_image := some "img" } [] 0 =
      .error ⟨"HTTPException",
        "control_type must be specified when using control_image",
        some 400⟩ ∧
    generate_image "j" "sd-v1-5" sdModel
      { prompt := "p", control_image := some "img",
        control_type := some "canny" } [] 0 =
      .error ⟨"HTTPException",
        "Model missing required capabilities: controlnet", some 400⟩ := by
  constructor
  · exact (c5_capability_validation "j" "sd-v1-5" sdModel
      { prompt := "p", control_image := some "img" } [] 0).1
      (by decide) (by decide)
  · have h := ((c5_capability_validation "j" "sd-v1-5" sdModel
      { prompt := "p", control_image := some "img",
        control_type := some "canny" } [] 0).2.2.1
      ["text-to-image", "controlnet"] (by decide) (by decide)).1
    exact h.trans (by decide)

/-! ## Claim C2 -/

/-- C2 (code bug): submitting the spec scenario against `flux-pro-1.1` does
return a synchronous `processing` record under the fresh job id — but when
the provider answers 200 with one image, the background task iterates the
dict returned by `FluxClient.generate_image` as if it were a list of images,
raises `AttributeError` on the first key, and writes an `error` record: the
job never completes with `batch_size` images. -/
theorem c2_scenario_type_mismatch :
    generate_image "job-1" "flux-pro-1.1" fluxProModel ctxFox [] 0 =
      .ok (initialResponse "job-1" "flux-pro-1.1" ctxFox 0,
           [("job-1", initialResponse "job-1" "flux-pro-1.1" ctxFox 0)]) ∧
    (initialResponse "job-1" "flux-pro-1.1" ctxFox 0).status = "processing" ∧
    "job-1" ≠ "" ∧
    ctxFox.batch_size = 1 ∧
    envOk.provider.status_code = 200 ∧
    envOk.provider.data.length = 1 ∧
    runJob envOk [("job-1", initialResponse "job-1" "flux-pro-1.1" ctxFox 0)]
        "job-1" "flux-pro-1.1" ctxFox 1 =
      [("job-1", errorResponse "job-1" "flux-pro-1.1" ctxFox 1
          "\x27str\x27 object has no attribute \x27save\x27")] ∧
    get_generation_status defaultRegistry
        [("job-1", errorResponse "job-1" "flux-pro-1.1" ctxFox 1
            "\x27str\x27 object has no attribute \x27save\x27")]
        "flux-pro-1.1" "job-1" =
      .ok (errorResponse "job-1" "flux-pro-1.1" ctxFox 1
          "\x27str\x27 object has no attribute \x27save\x27") := by
  decide

/-! ## Claim C3 -/

theorem reconProcessOne_trace (env : Env) (c : ImageGenerationContext)
    (imgUrl : Option String) (d : ImageDict) (t : List Stage)
    (h : reconProcessOne env c imgUrl = .ok (some d, t)) :
    t = (if c.face_enhance then [Stage.faceEnhance] else []) ++
        (if upscaleRequested c.upscale_factor then [Stage.upscale] else []) := by
  unfold reconProcessOne at h
  simp only [Bind.bind, Except.bind] at h
  repeat' split at h
  all_goals simp_all

/-- C3 counterexample: with tiling requested (together with face-enhance and
upscale), the per-image pipeline applies face-enhance then upscale and never
the tileable stage — refuting "tileable applied iff the tiling flag". -/
theorem c3_counterexample :
    ctxStages.tiling = true ∧
    reconProcessOne envRecon ctxStages (some "http://img/1") =
      .ok (some ⟨"QUJD", "base64", "png"⟩,
           [Stage.faceEnhance, Stage.upscale]) ∧
    Stage.tileable ∉ [Stage.faceEnhance, Stage.upscale] := by
  decide

/-- C3 amended: for every image the pipeline applies exactly two conditional
stages in the fixed order face-enhance then upscale (face-enhance iff its
flag is set, upscale iff the factor is present and exceeds 1); the tileable
stage is never applied, whatever the tiling flag says. -/
theorem c3_pipeline_stages (env : Env) (c : ImageGenerationContext)
    (imgUrl : Option String) (d : ImageDict) (t : List Stage)
    (h : reconProcessOne env c imgUrl = .ok (some d, t)) :
    t = (if c.face_enhance then [Stage.faceEnhance] else []) ++
        (if upscaleRequested c.upscale_factor then [Stage.upscale] else []) ∧
    Stage.tileable ∉ t := by
  have ht := reconProcessOne_trace env c imgUrl d t h
  refine ⟨ht, ?_⟩
  subst ht
  cases hfe : c.face_enhance <;>
    cases hur : upscaleRequested c.upscale_factor <;>
      simp [hfe, hur]

/-- C3 witness: the amended statement applied to a concrete all-flags run. -/
theorem c3_pipeline_stages_witness :
    ([Stage.faceEnhance, Stage.upscale] : List Stage) =
      (if ctxStages.face_enhance then [Stage.faceEnhance] else []) ++
        (if upscaleRequested ctxStages.upscale_factor then [Stage.upscale]
         else []) ∧
    Stage.tileable ∉ [Stage.faceEnhance, Stage.upscale] := by
  exact c3_pipeline_stages envRecon ctxStages (some "http://img/1")
    ⟨"QUJD", "base64", "png"⟩ [Stage.faceEnhance, Stage.upscale] (by decide)

/-! ## Claim C4 -/

/-- C4 counterexample: the embedded payload names one image, its fetch
returns 404, and the job still terminates `completed` with that image
silently missing from the (empty) image list. -/
theorem c4_counterexample :
    process_image_generation envRecon404 "job" "m" ctxSimple 0 =
      reconResponse "job" "m" ctxSimple 0 (some 42) [] ∧
    (reconResponse "job" "m" ctxSimple 0 (some 42) []).status = "completed" ∧
    envRecon404.fetch "http://img/1" = .ok ⟨404, []⟩ ∧
    (reconResponse "job" "m" ctxSimple 0 (some 42) []).images = [] := by
  decide

/-- C4 amended: during reconciliation an image URL whose fetch has a
non-success status is silently skipped — it contributes nothing to the image
list and does not fail the job, which can still complete without it. -/
theorem c4_nonsuccess_fetch_skipped (env : Env) (c : ImageGenerationContext)
    (u : String) (rest : List (Option String)) (fr : FetchResp)
    (hu : u ≠ "") (hf : env.fetch u = .ok fr) (hs : fr.status_code ≠ 200) :
    reconProcessOne env c (some u) = .ok (none, []) ∧
    reconLoop env c (some u :: rest) = reconLoop env c rest := by
  have htr : truthyOptStr (some u) = true := by
    simp [truthyOptStr, hu]
  have h1 : reconProcessOne env c (some u) = .ok (none, []) := by
    unfold reconProcessOne
    rw [htr, if_pos rfl, Option.getD_some, hf]
    simp only [Bind.bind, Except.bind]
    rw [if_neg hs]
  refine ⟨h1, ?_⟩
  simp only [reconLoop]
  rw [h1]
  simp only [Bind.bind, Except.bind]
  cases hrl : reconLoop env c rest with
  | error e => rfl
  | ok rs => simp

/-- C4 witness: the amended skip behaviour at the concrete 404 fetch. -/
theorem c4_nonsuccess_fetch_skipped_witness :
    reconProcessOne envRecon404 ctxSimple (some "http://img/1") =
      .ok (none, []) ∧
    reconLoop envRecon404 ctxSimple (some "http://img/1" :: []) =
      reconLoop envRecon404 ctxSimple [] := by
  exact c4_nonsuccess_fetch_skipped envRecon404 ctxSimple "http://img/1" []
    ⟨404, []⟩ (by decide) (by decide) (by decide)

/-! ## Claim C7 -/

/-- The Conflict failure raised by a duplicate registration. -/
def conflictExn (m : MCPImageModel) : PyExn :=
  ⟨"HTTPException", "Model " ++ m.model_id ++ " already registered", some 400⟩

/-- C7 counterexample: registering an already-registered identifier is
retried — three attempts are made and the failure surfaces wrapped in a
RetryError, not raised exactly once. -/
theorem c7_counterexample :
    ModelRegistry.register_model defaultRegistry sdModel =
      (3, .error ⟨"RetryError", "400: Model sd-v1-5 already registered",
        none⟩) ∧
    (ModelRegistry.register_model defaultRegistry sdModel).1 ≠ 1 := by
  decide

/-- C7 amended: `register_model` raises a Conflict (HTTP 400) per attempt on
a duplicate identifier, but the tenacity wrapper retries every exception, so
a duplicate registration makes all 3 attempts and then fails with a
RetryError wrapping the conflict, leaving the registry unchanged; a fresh
identifier registers on the first attempt. -/
theorem c7_register_retries_conflict (st : RegState) (m : MCPImageModel) :
    ((regLookup st m.model_id).isSome = true →
      ModelRegistry.register_model st m =
        (3, .error ⟨"RetryError", strOfExn (conflictExn m), none⟩)) ∧
    ((regLookup st m.model_id).isSome = false →
      ModelRegistry.register_model st m =
        (1, .ok ⟨st.models ++ [(m.model_id, m)]⟩)) := by
  constructor
  · intro h
    simp [ModelRegistry.register_model, tenacityRetry3,
      ModelRegistry.register_model_once, h, conflictExn]
  · intro h
    simp [ModelRegistry.register_model, tenacityRetry3,
      ModelRegistry.register_model_once, h]

/-- C7 witness: the amended statement at the concrete duplicate
registration of the second built-in model. -/
theorem c7_register_retries_conflict_witness :
    ModelRegistry.register_model defaultRegistry fluxProModel =
      (3, .error ⟨"RetryError", strOfExn (conflictExn fluxProModel),
        none⟩) := by
  exact (c7_register_retries_conflict defaultRegistry fluxProModel).1
    (by decide)

/-! ## Claim C8 -/

/-- C8 counterexample: looking up an unknown model id raises a plain
`ValueError` carrying no HTTP status — not a 404. -/
theorem c8_counterexample :
    dep_get_model defaultRegistry "no-such-model" =
      .error ⟨"ValueError", "Model no-such-model not found", none⟩ ∧
    errStatusOf (dep_get_model defaultRegistry "no-such-model") ≠
      some 404 := by
  decide

/-- C8 amended: a never-issued job id yields a synchronous HTTP 404 from the
status endpoint (when the model resolves), but an unknown model id makes the
`get_model` dependency raise a plain `ValueError` (surfaced by the framework
as a 500-equivalent), not a 404. -/
theorem c8_lookup_errors (st : RegState) (store : JobStore)
    (model_id gid : String) :
    (ModelRegistry.get_model st model_id = none →
      dep_get_model st model_id =
        .error ⟨"ValueError", "Model " ++ model_id ++ " not found", none⟩) ∧
    (∀ m, ModelRegistry.get_model st model_id = some m →
      storeLookup store gid = none →
      get_generation_status st store model_id gid =
        .error ⟨"HTTPException", "Generation " ++ gid ++ " not found",
          some 404⟩) := by
  constructor
  · intro h
    unfold dep_get_model
    rw [h]
  · intro m hm hg
    unfold get_generation_status dep_get_model
    rw [hm]
    simp only [Bind.bind, Except.bind]
    rw [hg]

/-- C8 witness: the amended statement at a concrete never-issued job id. -/
theorem c8_lookup_errors_witness :
    get_generation_status defaultRegistry [] "flux-pro-1.1" "never-issued" =
      .error ⟨"HTTPException", "Generation never-issued not found",
        some 404⟩ := by
  exact (c8_lookup_errors defaultRegistry [] "flux-pro-1.1" "never-issued").2
    fluxProModel (by decide) rfl

/-! ## Claim C9 -/

/-- A scraping environment whose provider fails on every call. -/
def scrapeFailEnv : ScrapeEnv :=
  { searchscraper := fun _ => .error ⟨"Exception", "boom", none⟩
    smartscraper := fun _ => .error ⟨"Exception", "boom", none⟩
    markdownify_p := fun _ => .error ⟨"Exception", "boom", none⟩
    analyzesentiment := fun _ => .error ⟨"Exception", "boom", none⟩
    summarize_p := fun _ => .error ⟨"Exception", "boom", none⟩ }

/-- C9 counterexample: with a persistently failing provider `search` makes
3 attempts but `analyze_sentiment` and `summarize` make exactly one — those
two are not wrapped in retry. -/
theorem c9_counterexample :
    (ScrapeGraphService.search scrapeFailEnv "q").1 = 3 ∧
    (ScrapeGraphService.analyze_sentiment scrapeFailEnv "t").1 = 1 ∧
    (ScrapeGraphService.summarize scrapeFailEnv "t" 100).1 = 1 := by
  decide

/-- C9 amended: only `search`, `extract_content` and `markdownify` carry the
3-attempt retry decorator; under a persistently failing provider `search`
exhausts its 3 attempts, `extract_content` and `markdownify` degrade to a
fallback result on their first attempt (their catch-all makes the decorator
vacuous), and `analyze_sentiment` and `summarize` fail after a single
attempt — they have no retry at all. -/
theorem c9_retry_coverage (env : ScrapeEnv) (q url lvl text : String)
    (e : PyExn)
    (hs : ∀ i, env.searchscraper i = .error e)
    (hm : ∀ i, env.smartscraper i = .error e)
    (hd : ∀ i, env.markdownify_p i = .error e)
    (ha : ∀ i, env.analyzesentiment i = .error e)
    (hu : ∀ i, env.summarize_p i = .error e) :
    ScrapeGraphService.search env q =
      (3, .error ⟨"RetryError", "Search failed: " ++ strOfExn e, none⟩) ∧
    ScrapeGraphService.extract_content env url =
      (1, .ok { title := url, url := url, content := "",
                source := "fallback", mstatus := some "partial",
                errorDetail := some (strOfExn e) }) ∧
    ScrapeGraphService.markdownify env url lvl =
      (1, .ok { title := url, url := url, content := "",
                source := "fallback", mstatus := some "fallback",
                errorDetail := some (strOfExn e) }) ∧
    ScrapeGraphService.analyze_sentiment env text =
      (1, .error ⟨"Exception", "Sentiment analysis failed: " ++ strOfExn e,
        none⟩) ∧
    ScrapeGraphService.summarize env text 100 =
      (1, .error ⟨"Exception", "Summarization failed: " ++ strOfExn e,
        none⟩) := by
  refine ⟨?_, ?_, ?_, ?_, ?_⟩
  · simp [ScrapeGraphService.search, ScrapeGraphService.search_once,
      tenacityRetry3, hs, strOfExn]
  · simp [ScrapeGraphService.extract_content,
      ScrapeGraphService.extract_content_once, tenacityRetry3, hm]
  · simp [ScrapeGraphService.markdownify,
      ScrapeGraphService.markdownify_once,
      ScrapeGraphService.extract_content,
      ScrapeGraphService.extract_content_once, tenacityRetry3, hd, hm]
  · simp [ScrapeGraphService.analyze_sentiment, ha]
  · simp [ScrapeGraphService.summarize, hu]

/-- C9 witness: the amended statement at the concrete failing provider. -/
theorem c9_retry_coverage_witness :
    ScrapeGraphService.search scrapeFailEnv "q" =
      (3, .error ⟨"RetryError", "Search failed: boom", none⟩) ∧
    ScrapeGraphService.summarize scrapeFailEnv "t" 100 =
      (1, .error ⟨"Exception", "Summarization failed: boom", none⟩) := by
  have h := c9_retry_coverage scrapeFailEnv "q" "u" "medium" "t"
    ⟨"Exception", "boom", none⟩ (fun _ => rfl) (fun _ => rfl) (fun _ => rfl)
    (fun _ => rfl) (fun _ => rfl)
  exact ⟨h.1, h.2.2.2.2⟩
